import Mathlib

/-!
Shallow embedding of the ISO-TP state machine from `iso_tp.h`.

Machine integers are modelled as `Nat`; the C code's `uint8_t` stores are
kept verbatim where the stored expression is provably below 256 for every
value the C program can produce, and masked with `% 256` where the C store
genuinely truncates (the `_cf_left` store in the FirstFrame path, whose
right-hand side can reach 4089).  Byte buffers (`uint8_t data[8]`,
`uint8_t n_data[8]`) are modelled as total functions `Nat → Nat`; `memcpy`
and `memset` become the pointwise combinators below.
-/

/-- Byte-wise model of `memcpy(&dst[dOff], &src[sOff], n)` on index functions. -/
def memcpyB (dst : Nat → Nat) (dOff : Nat) (src : Nat → Nat) (sOff n : Nat) :
    Nat → Nat :=
  fun i => if dOff ≤ i ∧ i < dOff + n then src (sOff + (i - dOff)) else dst i

/-- Model of a single byte store `d[j] = v`. -/
def setB (d : Nat → Nat) (j v : Nat) : Nat → Nat :=
  fun i => if i = j then v else d i

/-- Model of `memset(d, 0, 8)`. -/
def memset8 (d : Nat → Nat) : Nat → Nat :=
  fun i => if i < 8 then 0 else d i

/-- Embeds `struct iso_tp_can_frame`. -/
structure iso_tp_can_frame where
  id : Nat
  len : Nat
  data : Nat → Nat

/-- Numeric values of `enum iso_tp_n_pcitype`, as in the C enum. -/
def ISO_TP_N_PCITYPE_INVALID : Nat := 0
def ISO_TP_N_PCITYPE_SF : Nat := 1
def ISO_TP_N_PCITYPE_FF : Nat := 2
def ISO_TP_N_PCITYPE_CF : Nat := 3
def ISO_TP_N_PCITYPE_FC : Nat := 4

/-- Numeric values of `enum _iso_tp_state`. -/
def _ISO_TP_STATE_CONFIG : Nat := 0
def _ISO_TP_STATE_LISTEN_N_PDU : Nat := 1

/-- Embeds `enum iso_tp_event`. -/
inductive iso_tp_event where
  | EVENT_NONE
  | EVENT_INVALID_CONFIG
  | EVENT_N_PDU
deriving DecidableEq, Repr

export iso_tp_event (EVENT_NONE EVENT_INVALID_CONFIG EVENT_N_PDU)

/-- Embeds `struct iso_tp_n_pci`. -/
structure iso_tp_n_pci where
  n_pcitype : Nat
  sf_dl : Nat
  ff_dl : Nat
  sn : Nat
  fs : Nat
  bs : Nat
  min_st : Nat

/-- Embeds `struct iso_tp_n_pdu`. -/
structure iso_tp_n_pdu where
  n_pci : iso_tp_n_pci
  n_data : Nat → Nat
  len_n_data : Nat

/-- Embeds `struct iso_tp_config`. -/
structure iso_tp_config where
  n_tatype : Nat
  tx_dl : Nat
  rx_dl : Nat
  min_ff_dl : Nat

/-- Embeds `struct iso_tp` (the main instance). -/
structure iso_tp where
  _state : Nat
  _n_pdu : iso_tp_n_pdu
  _cfg : iso_tp_config
  _has_tx : Bool
  _has_rx : Bool
  _can_tx_frame : iso_tp_can_frame
  _can_rx_frame : iso_tp_can_frame
  _cf_left : Nat
  _cf_err : Bool

/-- Embeds `iso_tp_init` (the two CAN frame fields are left as they were, exactly as
the C constructor does not touch them). -/
def iso_tp_init (self : iso_tp) : iso_tp :=
  { self with
    _state := _ISO_TP_STATE_CONFIG
    _n_pdu :=
      { n_pci :=
          { n_pcitype := 0, sf_dl := 0, ff_dl := 0, sn := 0,
            fs := 0, bs := 0, min_st := 0 }
        n_data := fun _ => 0
        len_n_data := 0 }
    _cfg := { n_tatype := 0, tx_dl := 0, rx_dl := 0, min_ff_dl := 0 }
    _has_tx := false
    _has_rx := false
    _cf_left := 0
    _cf_err := false }

/-- Embeds `_iso_tp_deduce_n_pcitype_n_sf`: the `sf_dl` field is stored before the
validation chain (as in the source), and the remaining fields only change on
the valid path. -/
def _iso_tp_deduce_n_pcitype_n_sf (self : iso_tp) (f : iso_tp_can_frame) :
    iso_tp :=
  let sf_dl := f.data 0 &&& 0x0F
  let self :=
    { self with _n_pdu := { self._n_pdu with
        n_pci := { self._n_pdu.n_pci with sf_dl := sf_dl } } }
  if f.len < 1 then self
  else if sf_dl = 0 then self
  else if sf_dl > 7 then self
  else if f.len < 1 + sf_dl then self
  else
    { self with _n_pdu :=
      { n_pci := { self._n_pdu.n_pci with
          n_pcitype := ISO_TP_N_PCITYPE_SF }
        len_n_data := sf_dl
        n_data := memcpyB self._n_pdu.n_data 0 f.data 1 sf_dl } }

/-- Embeds `_iso_tp_deduce_n_pcitype_n_ff`: `ff_dl`, `rx_dl` and `_cf_err := true`
are stored before the validation chain; the `_cf_left` store goes through a
`uint8_t`, hence the `% 256`. -/
def _iso_tp_deduce_n_pcitype_n_ff (self : iso_tp) (f : iso_tp_can_frame) :
    iso_tp :=
  let ff_dl := ((f.data 0 &&& 0x0F) <<< 8) ||| f.data 1
  let self :=
    { self with
      _n_pdu := { self._n_pdu with
        n_pci := { self._n_pdu.n_pci with ff_dl := ff_dl } }
      _cfg := { self._cfg with rx_dl := f.len }
      _cf_err := true }
  if f.len < 2 then self
  else if ff_dl = 0 then self
  else if ff_dl < self._cfg.min_ff_dl then self
  else if ff_dl < self._cfg.rx_dl - 2 then self
  else
    { self with
      _n_pdu :=
        { n_pci := { self._n_pdu.n_pci with
            n_pcitype := ISO_TP_N_PCITYPE_FF
            sn := 0 }
          len_n_data := f.len - 2
          n_data := memcpyB self._n_pdu.n_data 0 f.data 2 (f.len - 2) }
      _cf_left := (ff_dl - (f.len - 2)) % 256
      _cf_err := false }

/-- Embeds `_iso_tp_decode_n_pdu`: classification by the top nibble of byte 0, with
the CF branch's `(sn - 1u) & 0x0F` computed in 32-bit unsigned arithmetic as
in C. -/
def _iso_tp_decode_n_pdu (self : iso_tp) (f : iso_tp_can_frame) : iso_tp :=
  let self :=
    { self with _n_pdu := { self._n_pdu with
        n_pci := { self._n_pdu.n_pci with
          n_pcitype := ISO_TP_N_PCITYPE_INVALID } } }
  if 1 ≤ f.len ∧ f.data 0 &&& 0xF0 = 0x00 then
    _iso_tp_deduce_n_pcitype_n_sf self f
  else if 2 ≤ f.len ∧ f.data 0 &&& 0xF0 = 0x10 then
    _iso_tp_deduce_n_pcitype_n_ff self f
  else if 1 ≤ f.len ∧ f.data 0 &&& 0xF0 = 0x20 ∧ 1 < self._cf_left then
    let sn := f.data 0 &&& 0x0F
    let cf_err :=
      if ((sn + 4294967295) % 4294967296) &&& 0x0F ≠ self._n_pdu.n_pci.sn
      then true else self._cf_err
    let len_n_data := if 7 < self._cf_left then 7 else self._cf_left
    { self with
      _n_pdu :=
        { n_pci := { self._n_pdu.n_pci with
            n_pcitype := ISO_TP_N_PCITYPE_CF
            sn := sn }
          len_n_data := len_n_data
          n_data := memcpyB self._n_pdu.n_data 0 f.data 1 len_n_data }
      _cf_left := if 7 ≤ self._cf_left then self._cf_left - 7 else 0
      _cf_err := cf_err }
  else if 3 ≤ f.len ∧ f.data 0 &&& 0xF0 = 0x30 then
    { self with _n_pdu :=
      { n_pci := { self._n_pdu.n_pci with
          n_pcitype := ISO_TP_N_PCITYPE_FC
          fs := f.data 0 &&& 0x0F
          bs := f.data 1
          min_st := f.data 2 }
        n_data := self._n_pdu.n_data
        len_n_data := 0 } }
  else self

/-- Embeds `_iso_tp_encode_n_pdu`: returns the written CAN frame (the C function
mutates only the frame).  Note the SF case with `sf_dl > 7` zero-fills the
data but leaves the frame length untouched, as in the source. -/
def _iso_tp_encode_n_pdu (self : iso_tp) (f : iso_tp_can_frame) :
    iso_tp_can_frame :=
  let d0 := memset8 f.data
  let t := self._n_pdu.n_pci.n_pcitype
  if t = ISO_TP_N_PCITYPE_SF then
    if self._n_pdu.n_pci.sf_dl ≤ 7 then
      let d1 := setB d0 0 (0x00 ||| self._n_pdu.n_pci.sf_dl)
      { f with
        data := memcpyB d1 1 self._n_pdu.n_data 0 self._n_pdu.n_pci.sf_dl
        len := 1 + self._n_pdu.n_pci.sf_dl }
    else
      { f with data := d0 }
  else if t = ISO_TP_N_PCITYPE_FF then
    let d1 := setB d0 0 (0x10 ||| ((self._n_pdu.n_pci.ff_dl >>> 8) &&& 0x0F))
    let d2 := setB d1 1 (self._n_pdu.n_pci.ff_dl &&& 0xFF)
    { f with
      data := memcpyB d2 2 self._n_pdu.n_data 0 6
      len := 8 }
  else if t = ISO_TP_N_PCITYPE_CF then
    let cf_payload_len :=
      if 7 < self._n_pdu.len_n_data then 7 else self._n_pdu.len_n_data
    let d1 := setB d0 0 (0x20 ||| (self._n_pdu.n_pci.sn &&& 0x0F))
    { f with
      data := memcpyB d1 1 self._n_pdu.n_data 0 cf_payload_len
      len := 1 + cf_payload_len }
  else if t = ISO_TP_N_PCITYPE_FC then
    let d1 := setB d0 0 (0x30 ||| (self._n_pdu.n_pci.fs &&& 0x0F))
    let d2 := setB d1 1 self._n_pdu.n_pci.bs
    let d3 := setB d2 2 self._n_pdu.n_pci.min_st
    { f with data := d3, len := 8 }
  else
    { f with data := d0, len := 0 }

/-- Embeds `iso_tp_get_config`. -/
def iso_tp_get_config (self : iso_tp) : iso_tp_config :=
  self._cfg

/-- Embeds `iso_tp_set_config`. -/
def iso_tp_set_config (self : iso_tp) (cfg : iso_tp_config) : iso_tp :=
  if self._state = _ISO_TP_STATE_CONFIG then { self with _cfg := cfg }
  else self

/-- Embeds `iso_tp_push_frame` (state, result). -/
def iso_tp_push_frame (self : iso_tp) (f : iso_tp_can_frame) :
    iso_tp × Bool :=
  if self._state = _ISO_TP_STATE_LISTEN_N_PDU ∧ self._has_rx = false then
    ({ self with _has_rx := true, _can_rx_frame := f }, true)
  else
    (self, false)

/-- Embeds `iso_tp_pop_frame` (state, popped frame if any, result). -/
def iso_tp_pop_frame (self : iso_tp) :
    iso_tp × Option iso_tp_can_frame × Bool :=
  if self._has_tx then
    ({ self with _has_tx := false }, some self._can_tx_frame, true)
  else
    (self, none, false)

/-- Embeds `iso_tp_get_n_pdu` (copied-out N_PDU if any, result). -/
def iso_tp_get_n_pdu (self : iso_tp) : Option iso_tp_n_pdu × Bool :=
  if self._n_pdu.n_pci.n_pcitype ≠ ISO_TP_N_PCITYPE_INVALID then
    (some self._n_pdu, true)
  else
    (none, false)

/-- Embeds `iso_tp_has_cf_err`. -/
def iso_tp_has_cf_err (self : iso_tp) : Bool :=
  self._cf_err

/-- Embeds `iso_tp_override_n_pdu` (state, result). -/
def iso_tp_override_n_pdu (self : iso_tp) (pdu : iso_tp_n_pdu) :
    iso_tp × Bool :=
  if self._has_tx = false then
    let self := { self with _n_pdu := pdu }
    let txf := { self._can_tx_frame with id := self._can_rx_frame.id }
    let txf := _iso_tp_encode_n_pdu self txf
    ({ self with _can_tx_frame := txf, _has_tx := true }, true)
  else
    (self, false)

/-- Embeds `iso_tp_step` (state, event). -/
def iso_tp_step (self : iso_tp) (delta_time_ms : Nat) : iso_tp × iso_tp_event :=
  if self._state = _ISO_TP_STATE_CONFIG then
    if self._cfg.tx_dl < 8 then
      (self, EVENT_INVALID_CONFIG)
    else
      let cfg :=
        if self._cfg.tx_dl = 8 then { self._cfg with min_ff_dl := 8 }
        else if 8 < self._cfg.tx_dl then
          { self._cfg with min_ff_dl := self._cfg.tx_dl - 1 }
        else self._cfg
      ({ self with _cfg := cfg, _state := _ISO_TP_STATE_LISTEN_N_PDU },
       EVENT_NONE)
  else if self._state = _ISO_TP_STATE_LISTEN_N_PDU then
    let self :=
      { self with _n_pdu := { self._n_pdu with
          n_pci := { self._n_pdu.n_pci with
            n_pcitype := ISO_TP_N_PCITYPE_INVALID } } }
    if self._has_rx = false then
      (self, EVENT_NONE)
    else
      let self := _iso_tp_decode_n_pdu self self._can_rx_frame
      let self := { self with _has_rx := false }
      if self._n_pdu.n_pci.n_pcitype = ISO_TP_N_PCITYPE_INVALID then
        (self, EVENT_NONE)
      else
        (self, EVENT_N_PDU)
  else
    (self, EVENT_NONE)

/-!  Helper lemmas about the byte-buffer combinators and small masks. -/

theorem memcpyB_in (dst : Nat → Nat) (dOff : Nat) (src : Nat → Nat)
    (sOff n i : Nat) (h1 : dOff ≤ i) (h2 : i < dOff + n) :
    memcpyB dst dOff src sOff n i = src (sOff + (i - dOff)) := by
  simp [memcpyB, h1, h2]

theorem memcpyB_out (dst : Nat → Nat) (dOff : Nat) (src : Nat → Nat)
    (sOff n i : Nat) (h : i < dOff ∨ dOff + n ≤ i) :
    memcpyB dst dOff src sOff n i = dst i := by
  simp only [memcpyB]
  rw [if_neg (by omega)]

theorem setB_self (d : Nat → Nat) (j v : Nat) : setB d j v j = v := by
  simp [setB]

theorem setB_other (d : Nat → Nat) (j v i : Nat) (h : i ≠ j) :
    setB d j v i = d i := by
  simp [setB, h]

theorem memset8_in (d : Nat → Nat) (i : Nat) (h : i < 8) : memset8 d i = 0 := by
  simp [memset8, h]

theorem land_0xF0_of_le_7 (n : Nat) (h : n ≤ 7) : n &&& 0xF0 = 0 := by
  interval_cases n <;> decide

theorem land_0x0F_of_le_7 (n : Nat) (h : n ≤ 7) : n &&& 0x0F = n := by
  interval_cases n <;> decide

/-!  Concrete fixtures used by counterexamples and witnesses. -/

/-- Bytes of a CAN frame given as a list (padding reads as 0). -/
def bytesOf (l : List Nat) : Nat → Nat := fun i => l.getD i 0

def zeroFrame : iso_tp_can_frame := { id := 0, len := 0, data := fun _ => 0 }

/-- A session in the listening state with the CAN 2.0 configuration
(`tx_dl = 8`, hence `min_ff_dl = 8`), all buffers empty. -/
def listenState : iso_tp :=
  { _state := _ISO_TP_STATE_LISTEN_N_PDU
    _n_pdu :=
      { n_pci := { n_pcitype := 0, sf_dl := 0, ff_dl := 0, sn := 0,
                   fs := 0, bs := 0, min_st := 0 }
        n_data := fun _ => 0
        len_n_data := 0 }
    _cfg := { n_tatype := 0, tx_dl := 8, rx_dl := 0, min_ff_dl := 8 }
    _has_tx := false
    _has_rx := false
    _can_tx_frame := zeroFrame
    _can_rx_frame := zeroFrame
    _cf_left := 0
    _cf_err := false }

/-- FirstFrame announcing a 9-byte message. -/
def frameFF9 : iso_tp_can_frame :=
  { id := 1, len := 8, data := bytesOf [0x10, 0x09, 1, 2, 3, 4, 5, 6] }

/-- FirstFrame announcing a 300-byte message (`0x12C`). -/
def frameFF300 : iso_tp_can_frame :=
  { id := 1, len := 8, data := bytesOf [0x11, 0x2C, 1, 2, 3, 4, 5, 6] }

/-- ConsecutiveFrame with sequence number 1. -/
def frameCF1 : iso_tp_can_frame :=
  { id := 1, len := 8, data := bytesOf [0x21, 7, 8, 9, 0, 0, 0, 0] }

/-- SingleFrame carrying the two bytes `0x10 0x01`. -/
def frameSF2 : iso_tp_can_frame :=
  { id := 0x7E8, len := 3, data := bytesOf [0x02, 0x10, 0x01] }

/-!  Structural invariants of the decode helpers (fields they never touch). -/

theorem deduce_sf_untouched (s : iso_tp) (f : iso_tp_can_frame) :
    (_iso_tp_deduce_n_pcitype_n_sf s f)._state = s._state ∧
    (_iso_tp_deduce_n_pcitype_n_sf s f)._cfg = s._cfg ∧
    (_iso_tp_deduce_n_pcitype_n_sf s f)._has_tx = s._has_tx ∧
    (_iso_tp_deduce_n_pcitype_n_sf s f)._has_rx = s._has_rx ∧
    (_iso_tp_deduce_n_pcitype_n_sf s f)._can_tx_frame = s._can_tx_frame ∧
    (_iso_tp_deduce_n_pcitype_n_sf s f)._can_rx_frame = s._can_rx_frame ∧
    (_iso_tp_deduce_n_pcitype_n_sf s f)._cf_left = s._cf_left ∧
    (_iso_tp_deduce_n_pcitype_n_sf s f)._cf_err = s._cf_err := by
  simp only [_iso_tp_deduce_n_pcitype_n_sf]
  repeat' split
  all_goals exact ⟨rfl, rfl, rfl, rfl, rfl, rfl, rfl, rfl⟩

theorem deduce_ff_untouched (s : iso_tp) (f : iso_tp_can_frame) :
    (_iso_tp_deduce_n_pcitype_n_ff s f)._state = s._state ∧
    (_iso_tp_deduce_n_pcitype_n_ff s f)._has_tx = s._has_tx ∧
    (_iso_tp_deduce_n_pcitype_n_ff s f)._has_rx = s._has_rx ∧
    (_iso_tp_deduce_n_pcitype_n_ff s f)._can_tx_frame = s._can_tx_frame ∧
    (_iso_tp_deduce_n_pcitype_n_ff s f)._can_rx_frame = s._can_rx_frame := by
  simp only [_iso_tp_deduce_n_pcitype_n_ff]
  repeat' split
  all_goals exact ⟨rfl, rfl, rfl, rfl, rfl⟩

theorem decode_untouched (s : iso_tp) (f : iso_tp_can_frame) :
    (_iso_tp_decode_n_pdu s f)._state = s._state ∧
    (_iso_tp_decode_n_pdu s f)._has_tx = s._has_tx ∧
    (_iso_tp_decode_n_pdu s f)._has_rx = s._has_rx ∧
    (_iso_tp_decode_n_pdu s f)._can_tx_frame = s._can_tx_frame ∧
    (_iso_tp_decode_n_pdu s f)._can_rx_frame = s._can_rx_frame := by
  simp only [_iso_tp_decode_n_pdu]
  repeat' split
  · exact ⟨(deduce_sf_untouched _ _).1, (deduce_sf_untouched _ _).2.2.1,
      (deduce_sf_untouched _ _).2.2.2.1, (deduce_sf_untouched _ _).2.2.2.2.1,
      (deduce_sf_untouched _ _).2.2.2.2.2.1⟩
  · exact ⟨(deduce_ff_untouched _ _).1, (deduce_ff_untouched _ _).2.1,
      (deduce_ff_untouched _ _).2.2.1, (deduce_ff_untouched _ _).2.2.2.1,
      (deduce_ff_untouched _ _).2.2.2.2⟩
  all_goals exact ⟨rfl, rfl, rfl, rfl, rfl⟩

theorem encode_id (s : iso_tp) (f : iso_tp_can_frame) :
    (_iso_tp_encode_n_pdu s f).id = f.id := by
  simp only [_iso_tp_encode_n_pdu]
  repeat' split
  all_goals rfl

/-- C5: in the AwaitingConfig state, `tx_dl < 8` makes every `step` return
the InvalidConfig event and leave the session unchanged (hence it stays in
AwaitingConfig under arbitrarily many repeated calls); with `tx_dl = 8` the
derived `min_ff_dl` becomes 8, with `tx_dl > 8` it becomes `tx_dl - 1`, and
in both cases the session transitions to the listening state. -/
theorem C5_awaiting_config_step (s : iso_tp) (d : Nat)
    (h : s._state = _ISO_TP_STATE_CONFIG) :
    (s._cfg.tx_dl < 8 →
      iso_tp_step s d = (s, EVENT_INVALID_CONFIG) ∧
      (∀ n : Nat, (fun t => (iso_tp_step t d).1)^[n] s = s) ∧
      (∀ n : Nat,
        (iso_tp_step ((fun t => (iso_tp_step t d).1)^[n] s) d).2 =
          EVENT_INVALID_CONFIG)) ∧
    (s._cfg.tx_dl = 8 →
      (iso_tp_step s d).1._cfg.min_ff_dl = 8 ∧
      (iso_tp_step s d).1._state = _ISO_TP_STATE_LISTEN_N_PDU ∧
      (iso_tp_step s d).2 = EVENT_NONE) ∧
    (8 < s._cfg.tx_dl →
      (iso_tp_step s d).1._cfg.min_ff_dl = s._cfg.tx_dl - 1 ∧
      (iso_tp_step s d).1._state = _ISO_TP_STATE_LISTEN_N_PDU ∧
      (iso_tp_step s d).2 = EVENT_NONE) := by
  refine ⟨fun hlt => ?_, fun heq => ?_, fun hgt => ?_⟩
  · have hstep : iso_tp_step s d = (s, EVENT_INVALID_CONFIG) := by
      simp [iso_tp_step, h, hlt]
    have hiter : ∀ n : Nat, (fun t => (iso_tp_step t d).1)^[n] s = s := by
      intro n
      induction n with
      | zero => rfl
      | succ k ih => rw [Function.iterate_succ_apply', ih, hstep]
    exact ⟨hstep, hiter, fun n => by rw [hiter n, hstep]⟩
  · simp [iso_tp_step, h, heq]
  · have h8 : ¬ s._cfg.tx_dl < 8 := by omega
    have hne : ¬ s._cfg.tx_dl = 8 := by omega
    simp [iso_tp_step, h, h8, hne, hgt]

/-- C5 witness: a freshly initialised session (`tx_dl = 0`) keeps returning
InvalidConfig, and the configured session (`tx_dl = 8`) transitions to
listening with `min_ff_dl = 8`. -/
theorem C5_awaiting_config_step_witness :
    iso_tp_step (iso_tp_init listenState) 0 =
      (iso_tp_init listenState, EVENT_INVALID_CONFIG) ∧
    (iso_tp_step { iso_tp_init listenState with
        _cfg := { n_tatype := 0, tx_dl := 8, rx_dl := 0, min_ff_dl := 0 } }
      0).1._cfg.min_ff_dl = 8 :=
  ⟨((C5_awaiting_config_step (iso_tp_init listenState) 0 (by decide)).1
      (by decide)).1,
   (((C5_awaiting_config_step { iso_tp_init listenState with
        _cfg := { n_tatype := 0, tx_dl := 8, rx_dl := 0, min_ff_dl := 0 } }
      0 (by decide)).2.1) (by decide)).1⟩

/-- C6: `iso_tp_override_n_pdu` fails and leaves the session unchanged when
the TX slot is occupied; otherwise it replaces the stored N_PDU with the
argument, encodes it into a frame whose identifier is that of the most
recently received frame, stores that frame in the TX slot and succeeds. -/
theorem C6_override_n_pdu (s : iso_tp) (pdu : iso_tp_n_pdu) :
    (s._has_tx = true → iso_tp_override_n_pdu s pdu = (s, false)) ∧
    (s._has_tx = false →
      (iso_tp_override_n_pdu s pdu).2 = true ∧
      (iso_tp_override_n_pdu s pdu).1._n_pdu = pdu ∧
      (iso_tp_override_n_pdu s pdu).1._has_tx = true ∧
      (iso_tp_override_n_pdu s pdu).1._can_tx_frame =
        _iso_tp_encode_n_pdu { s with _n_pdu := pdu }
          { s._can_tx_frame with id := s._can_rx_frame.id } ∧
      (iso_tp_override_n_pdu s pdu).1._can_tx_frame.id =
        s._can_rx_frame.id ∧
      (iso_tp_override_n_pdu s pdu).1._state = s._state ∧
      (iso_tp_override_n_pdu s pdu).1._has_rx = s._has_rx) := by
  constructor
  · intro h
    simp [iso_tp_override_n_pdu, h]
  · intro h
    refine ⟨?_, ?_, ?_, ?_, ?_, ?_, ?_⟩
    · simp [iso_tp_override_n_pdu, h]
    · simp [iso_tp_override_n_pdu, h]
    · simp [iso_tp_override_n_pdu, h]
    · simp [iso_tp_override_n_pdu, h]
    · simp only [iso_tp_override_n_pdu, h, Bool.false_eq_true, if_true,
        if_pos rfl]
      exact encode_id _ _
    · simp [iso_tp_override_n_pdu, h]
    · simp [iso_tp_override_n_pdu, h]

/-- C6 witness: overriding on a listening session with a free TX slot
succeeds and targets the last received identifier. -/
theorem C6_override_n_pdu_witness :
    (iso_tp_override_n_pdu listenState listenState._n_pdu).2 = true ∧
    (iso_tp_override_n_pdu
      { listenState with _has_tx := true } listenState._n_pdu) =
      ({ listenState with _has_tx := true }, false) :=
  ⟨((C6_override_n_pdu listenState listenState._n_pdu).2 rfl).1,
   (C6_override_n_pdu { listenState with _has_tx := true }
      listenState._n_pdu).1 rfl⟩


/-- C7: `iso_tp_push_frame` fails leaving the session unchanged when the
session is not listening or the RX slot is full, succeeds by copying the
frame into the RX slot otherwise; a second push before any step fails, and
a push after a step (which drains the slot) succeeds. -/
theorem C7_push_frame (s : iso_tp) (f f2 : iso_tp_can_frame) (d : Nat) :
    (s._state ≠ _ISO_TP_STATE_LISTEN_N_PDU ∨ s._has_rx = true →
      iso_tp_push_frame s f = (s, false)) ∧
    (s._state = _ISO_TP_STATE_LISTEN_N_PDU → s._has_rx = false →
      iso_tp_push_frame s f =
        ({ s with _has_rx := true, _can_rx_frame := f }, true)) ∧
    (s._state = _ISO_TP_STATE_LISTEN_N_PDU → s._has_rx = false →
      (iso_tp_push_frame (iso_tp_push_frame s f).1 f2).2 = false) ∧
    (s._state = _ISO_TP_STATE_LISTEN_N_PDU →
      (iso_tp_push_frame (iso_tp_step s d).1 f2).2 = true) := by
  refine ⟨fun h => ?_, fun h1 h2 => ?_, fun h1 h2 => ?_, fun h1 => ?_⟩
  · rcases h with h | h
    · simp [iso_tp_push_frame, h]
    · simp [iso_tp_push_frame, h]
  · simp [iso_tp_push_frame, h1, h2]
  · simp [iso_tp_push_frame, h1, h2]
  · have hcfg : ¬ s._state = _ISO_TP_STATE_CONFIG := by
      rw [h1]; decide
    rcases hrx : s._has_rx with _ | _
    · simp [iso_tp_step, _ISO_TP_STATE_CONFIG, _ISO_TP_STATE_LISTEN_N_PDU,
            h1, hrx, iso_tp_push_frame]
    · simp only [iso_tp_step, if_neg hcfg, if_pos h1, hrx]
      simp only [Bool.true_eq_false, if_false]
      rw [apply_ite Prod.fst, ite_self]
      simp only [iso_tp_push_frame]
      rw [if_pos ⟨(decode_untouched _ _).1.trans h1, by simp⟩]
/-- C7 witness: on the concrete listening session a push succeeds, an
immediate second push fails, and a push after one step succeeds again. -/
theorem C7_push_frame_witness :
    iso_tp_push_frame listenState frameSF2 =
      ({ listenState with _has_rx := true, _can_rx_frame := frameSF2 },
       true) ∧
    (iso_tp_push_frame (iso_tp_push_frame listenState frameSF2).1
      frameFF9).2 = false ∧
    (iso_tp_push_frame (iso_tp_step listenState 0).1 frameFF9).2 = true :=
  ⟨(C7_push_frame listenState frameSF2 frameFF9 0).2.1 rfl rfl,
   (C7_push_frame listenState frameSF2 frameFF9 0).2.2.1 rfl rfl,
   (C7_push_frame listenState frameSF2 frameFF9 0).2.2.2 rfl⟩

/-- C8: `iso_tp_set_config` is a silent no-op once the session is in the
listening state (more generally, in any state other than AwaitingConfig),
and mutates the configuration only in the AwaitingConfig state. -/
theorem C8_set_config_guard (s : iso_tp) (cfg : iso_tp_config) :
    (s._state = _ISO_TP_STATE_LISTEN_N_PDU → iso_tp_set_config s cfg = s) ∧
    (s._state ≠ _ISO_TP_STATE_CONFIG → iso_tp_set_config s cfg = s) ∧
    (s._state = _ISO_TP_STATE_CONFIG →
      iso_tp_set_config s cfg = { s with _cfg := cfg }) := by
  refine ⟨fun h => ?_, fun h => ?_, fun h => ?_⟩
  · have : s._state ≠ _ISO_TP_STATE_CONFIG := by rw [h]; decide
    simp [iso_tp_set_config, this]
  · simp [iso_tp_set_config, h]
  · simp [iso_tp_set_config, h]

/-- C8 witness: setting a config on the listening session changes nothing. -/
theorem C8_set_config_guard_witness :
    iso_tp_set_config listenState
      { n_tatype := 0, tx_dl := 12, rx_dl := 0, min_ff_dl := 0 } =
      listenState :=
  (C8_set_config_guard listenState
    { n_tatype := 0, tx_dl := 12, rx_dl := 0, min_ff_dl := 0 }).1 rfl

/-- C9: encoding a FirstFrame produces byte0 = `0x10 | ((ff_dl >> 8) & 0x0F)`,
byte1 = `ff_dl & 0xFF`, exactly the six payload bytes at offsets 2..7, and a
frame length of 8; in particular a total length of `0x123` gives byte0 =
`0x11` and byte1 = `0x23`. -/
theorem C9_ff_encode_layout (s : iso_tp) (f : iso_tp_can_frame)
    (hk : s._n_pdu.n_pci.n_pcitype = ISO_TP_N_PCITYPE_FF) :
    (_iso_tp_encode_n_pdu s f).data 0 =
      0x10 ||| ((s._n_pdu.n_pci.ff_dl >>> 8) &&& 0x0F) ∧
    (_iso_tp_encode_n_pdu s f).data 1 = s._n_pdu.n_pci.ff_dl &&& 0xFF ∧
    (∀ i : Nat, i < 6 →
      (_iso_tp_encode_n_pdu s f).data (2 + i) = s._n_pdu.n_data i) ∧
    (_iso_tp_encode_n_pdu s f).len = 8 ∧
    (s._n_pdu.n_pci.ff_dl = 0x123 →
      (_iso_tp_encode_n_pdu s f).data 0 = 0x11 ∧
      (_iso_tp_encode_n_pdu s f).data 1 = 0x23) := by
  have hne : ¬ s._n_pdu.n_pci.n_pcitype = ISO_TP_N_PCITYPE_SF := by
    rw [hk]; decide
  have hd : _iso_tp_encode_n_pdu s f =
      { f with
        data := memcpyB
          (setB (setB (memset8 f.data) 0
            (0x10 ||| ((s._n_pdu.n_pci.ff_dl >>> 8) &&& 0x0F)))
            1 (s._n_pdu.n_pci.ff_dl &&& 0xFF))
          2 s._n_pdu.n_data 0 6
        len := 8 } := by
    simp only [_iso_tp_encode_n_pdu, if_neg hne, if_pos hk]
  have hdata : (_iso_tp_encode_n_pdu s f).data =
      memcpyB
        (setB (setB (memset8 f.data) 0
          (0x10 ||| ((s._n_pdu.n_pci.ff_dl >>> 8) &&& 0x0F)))
          1 (s._n_pdu.n_pci.ff_dl &&& 0xFF))
        2 s._n_pdu.n_data 0 6 := by
    rw [hd]
  refine ⟨?_, ?_, ?_, ?_, ?_⟩
  · rw [hdata, memcpyB_out _ _ _ _ _ _ (by omega),
      setB_other _ _ _ _ (by omega), setB_self]
  · rw [hdata, memcpyB_out _ _ _ _ _ _ (by omega), setB_self]
  · intro i hi
    rw [hdata, memcpyB_in _ _ _ _ _ _ (by omega) (by omega)]
    congr 1
    omega
  · rw [hd]
  · intro hdl
    constructor
    · rw [hdata, memcpyB_out _ _ _ _ _ _ (by omega),
        setB_other _ _ _ _ (by omega), setB_self, hdl]
      decide
    · rw [hdata, memcpyB_out _ _ _ _ _ _ (by omega), setB_self, hdl]
      decide

/-- State fixture holding a FirstFrame N_PDU with total length `0x123`. -/
def stateFF123 : iso_tp :=
  { listenState with _n_pdu :=
    { n_pci := { n_pcitype := ISO_TP_N_PCITYPE_FF, sf_dl := 0,
                 ff_dl := 0x123, sn := 0, fs := 0, bs := 0, min_st := 0 }
      n_data := bytesOf [1, 2, 3, 4, 5, 6]
      len_n_data := 6 } }

/-- C9 witness: the `0x123` FirstFrame encodes to `0x11 0x23 ...` with
length 8. -/
theorem C9_ff_encode_layout_witness :
    (_iso_tp_encode_n_pdu stateFF123 zeroFrame).data 0 = 0x11 ∧
    (_iso_tp_encode_n_pdu stateFF123 zeroFrame).data 1 = 0x23 ∧
    (_iso_tp_encode_n_pdu stateFF123 zeroFrame).len = 8 :=
  ⟨((C9_ff_encode_layout stateFF123 zeroFrame rfl).2.2.2.2 rfl).1,
   ((C9_ff_encode_layout stateFF123 zeroFrame rfl).2.2.2.2 rfl).2,
   (C9_ff_encode_layout stateFF123 zeroFrame rfl).2.2.2.1⟩

/-- C10: encoding a SingleFrame message whose `sf_dl` exceeds 7 zero-fills
all eight data bytes of the output frame but leaves the frame's length field
at its previous value: it neither emits a SingleFrame byte pattern nor the
zero-length "nothing to send" frame (whenever the stale length was
nonzero). -/
theorem C10_sf_overlong_encode (s : iso_tp) (f : iso_tp_can_frame)
    (hk : s._n_pdu.n_pci.n_pcitype = ISO_TP_N_PCITYPE_SF)
    (h7 : 7 < s._n_pdu.n_pci.sf_dl) :
    (_iso_tp_encode_n_pdu s f).len = f.len ∧
    (∀ i : Nat, i < 8 → (_iso_tp_encode_n_pdu s f).data i = 0) ∧
    (f.len ≠ 0 → (_iso_tp_encode_n_pdu s f).len ≠ 0) := by
  have hne : ¬ s._n_pdu.n_pci.sf_dl ≤ 7 := by omega
  have hd : _iso_tp_encode_n_pdu s f = { f with data := memset8 f.data } := by
    simp only [_iso_tp_encode_n_pdu, if_pos hk, if_neg hne]
  have hdata : (_iso_tp_encode_n_pdu s f).data = memset8 f.data := by
    rw [hd]
  refine ⟨by rw [hd], fun i hi => ?_, fun h => by rw [hd]; exact h⟩
  rw [hdata]
  exact memset8_in f.data i hi

/-- State fixture holding a SingleFrame N_PDU with the out-of-range
`sf_dl = 9`. -/
def stateSF9 : iso_tp :=
  { listenState with _n_pdu :=
    { n_pci := { n_pcitype := ISO_TP_N_PCITYPE_SF, sf_dl := 9,
                 ff_dl := 0, sn := 0, fs := 0, bs := 0, min_st := 0 }
      n_data := bytesOf [1, 2, 3, 4, 5, 6, 7, 8]
      len_n_data := 9 } }

/-- A stale frame with a nonzero length, used as the encode target. -/
def staleFrame : iso_tp_can_frame :=
  { id := 7, len := 5, data := bytesOf [9, 9, 9, 9, 9] }

/-- C10 witness: encoding the `sf_dl = 9` message over a stale length-5 frame
keeps length 5 and zeroes the data. -/
theorem C10_sf_overlong_encode_witness :
    (_iso_tp_encode_n_pdu stateSF9 staleFrame).len = 5 ∧
    (_iso_tp_encode_n_pdu stateSF9 staleFrame).data 0 = 0 ∧
    (_iso_tp_encode_n_pdu stateSF9 staleFrame).len ≠ 0 :=
  ⟨(C10_sf_overlong_encode stateSF9 staleFrame rfl (by decide)).1,
   (C10_sf_overlong_encode stateSF9 staleFrame rfl (by decide)).2.1 0
     (by decide),
   (C10_sf_overlong_encode stateSF9 staleFrame rfl (by decide)).2.2
     (by decide)⟩

/-!  Branch characterisations of the decoder, shared by several claims. -/

theorem deduce_ff_valid (s : iso_tp) (f : iso_tp_can_frame)
    (h2 : 2 ≤ f.len)
    (hv0 : ((f.data 0 &&& 0x0F) <<< 8) ||| f.data 1 ≠ 0)
    (hv1 : ¬ ((f.data 0 &&& 0x0F) <<< 8) ||| f.data 1 < s._cfg.min_ff_dl)
    (hv2 : ¬ ((f.data 0 &&& 0x0F) <<< 8) ||| f.data 1 < f.len - 2) :
    _iso_tp_deduce_n_pcitype_n_ff s f =
      { s with
        _n_pdu :=
          { n_pci := { s._n_pdu.n_pci with
              n_pcitype := ISO_TP_N_PCITYPE_FF
              ff_dl := ((f.data 0 &&& 0x0F) <<< 8) ||| f.data 1
              sn := 0 }
            len_n_data := f.len - 2
            n_data := memcpyB s._n_pdu.n_data 0 f.data 2 (f.len - 2) }
        _cfg := { s._cfg with rx_dl := f.len }
        _cf_left :=
          ((((f.data 0 &&& 0x0F) <<< 8) ||| f.data 1) - (f.len - 2)) % 256
        _cf_err := false } := by
  simp only [_iso_tp_deduce_n_pcitype_n_ff]
  rw [if_neg (by omega), if_neg hv0, if_neg hv1, if_neg hv2]

theorem decode_ff_branch (s : iso_tp) (f : iso_tp_can_frame)
    (h1 : 2 ≤ f.len) (h2 : f.data 0 &&& 0xF0 = 0x10) :
    _iso_tp_decode_n_pdu s f =
      _iso_tp_deduce_n_pcitype_n_ff
        { s with _n_pdu := { s._n_pdu with
            n_pci := { s._n_pdu.n_pci with
              n_pcitype := ISO_TP_N_PCITYPE_INVALID } } } f := by
  simp only [_iso_tp_decode_n_pdu]
  rw [if_neg (by simp [h2]), if_pos ⟨h1, h2⟩]

theorem decode_cf_branch (s : iso_tp) (f : iso_tp_can_frame)
    (h1 : 1 ≤ f.len) (h2 : f.data 0 &&& 0xF0 = 0x20) (h3 : 1 < s._cf_left) :
    _iso_tp_decode_n_pdu s f =
      { s with
        _n_pdu :=
          { n_pci := { s._n_pdu.n_pci with
              n_pcitype := ISO_TP_N_PCITYPE_CF
              sn := f.data 0 &&& 0x0F }
            len_n_data := if 7 < s._cf_left then 7 else s._cf_left
            n_data := memcpyB s._n_pdu.n_data 0 f.data 1
              (if 7 < s._cf_left then 7 else s._cf_left) }
        _cf_left := if 7 ≤ s._cf_left then s._cf_left - 7 else 0
        _cf_err :=
          if (((f.data 0 &&& 0x0F) + 4294967295) % 4294967296) &&& 0x0F ≠
              s._n_pdu.n_pci.sn
          then true else s._cf_err } := by
  simp only [_iso_tp_decode_n_pdu]
  rw [if_neg (by simp [h2]), if_neg (by simp [h2]), if_pos ⟨h1, h2, h3⟩]

/-- C1 counterexample: a FirstFrame announcing total length 300 in an 8-byte
frame is accepted, but the remaining-bytes counter is stored through a
`uint8_t` and ends up at `294 % 256 = 38`, not at the u16 value 294 the
claim states. -/
theorem C1_remaining_not_u16 :
    (_iso_tp_decode_n_pdu listenState frameFF300)._n_pdu.n_pci.n_pcitype =
      ISO_TP_N_PCITYPE_FF ∧
    (_iso_tp_decode_n_pdu listenState frameFF300)._n_pdu.n_pci.ff_dl = 300 ∧
    frameFF300.len - 2 = 6 ∧
    (_iso_tp_decode_n_pdu listenState frameFF300)._cf_left = 38 ∧
    (_iso_tp_decode_n_pdu listenState frameFF300)._cf_left ≠ 294 := by
  decide

/-- C1 (amended): for an accepted FirstFrame the remaining-bytes counter is
an 8-bit quantity: it is set to `(first_frame_total_length - (frame.length -
2)) % 256`; for an accepted ConsecutiveFrame the message's payload length is
`min(remaining_bytes, 7)` and the counter becomes `remaining_bytes - 7`
truncated at 0, reaching 0 when reassembly is complete. -/
theorem C1_remaining_counter (s : iso_tp) (f : iso_tp_can_frame) :
    (2 ≤ f.len → f.data 0 &&& 0xF0 = 0x10 →
      ((f.data 0 &&& 0x0F) <<< 8) ||| f.data 1 ≠ 0 →
      ¬ ((f.data 0 &&& 0x0F) <<< 8) ||| f.data 1 < s._cfg.min_ff_dl →
      ¬ ((f.data 0 &&& 0x0F) <<< 8) ||| f.data 1 < f.len - 2 →
      (_iso_tp_decode_n_pdu s f)._n_pdu.n_pci.n_pcitype =
        ISO_TP_N_PCITYPE_FF ∧
      (_iso_tp_decode_n_pdu s f)._n_pdu.len_n_data = f.len - 2 ∧
      (_iso_tp_decode_n_pdu s f)._cf_left =
        ((((f.data 0 &&& 0x0F) <<< 8) ||| f.data 1) - (f.len - 2)) % 256) ∧
    (1 ≤ f.len → f.data 0 &&& 0xF0 = 0x20 → 1 < s._cf_left →
      (_iso_tp_decode_n_pdu s f)._n_pdu.n_pci.n_pcitype =
        ISO_TP_N_PCITYPE_CF ∧
      (_iso_tp_decode_n_pdu s f)._n_pdu.len_n_data = min s._cf_left 7 ∧
      (_iso_tp_decode_n_pdu s f)._cf_left = s._cf_left - 7) := by
  constructor
  · intro h1 h2 hv0 hv1 hv2
    rw [decode_ff_branch s f h1 h2,
      deduce_ff_valid
        { s with _n_pdu := { s._n_pdu with
            n_pci := { s._n_pdu.n_pci with
              n_pcitype := ISO_TP_N_PCITYPE_INVALID } } } f h1 hv0 hv1 hv2]
    exact ⟨rfl, rfl, rfl⟩
  · intro h1 h2 h3
    rw [decode_cf_branch s f h1 h2 h3]
    refine ⟨rfl, ?_, ?_⟩
    · show (if 7 < s._cf_left then 7 else s._cf_left) = _
      split <;> omega
    · show (if 7 ≤ s._cf_left then s._cf_left - 7 else 0) = _
      split <;> omega

/-- State with a reassembly in progress: 3 bytes left after `frameFF9`. -/
def stateCF3 : iso_tp := _iso_tp_decode_n_pdu listenState frameFF9

/-- C1 witness: the 9-byte FirstFrame leaves `9 - 6 = 3` remaining, and the
following ConsecutiveFrame consumes `min(3, 7) = 3` bytes leaving 0. -/
theorem C1_remaining_counter_witness :
    (_iso_tp_decode_n_pdu listenState frameFF9)._cf_left = (9 - 6) % 256 ∧
    (_iso_tp_decode_n_pdu stateCF3 frameCF1)._n_pdu.len_n_data =
      min stateCF3._cf_left 7 ∧
    (_iso_tp_decode_n_pdu stateCF3 frameCF1)._cf_left =
      stateCF3._cf_left - 7 :=
  ⟨((C1_remaining_counter listenState frameFF9).1 (by decide) (by decide)
      (by decide) (by decide) (by decide)).2.2,
   ((C1_remaining_counter stateCF3 frameCF1).2 (by decide) (by decide)
      (by decide)).2.1,
   ((C1_remaining_counter stateCF3 frameCF1).2 (by decide) (by decide)
      (by decide)).2.2⟩

theorem decode_sf_branch (s : iso_tp) (f : iso_tp_can_frame)
    (h1 : 1 ≤ f.len) (h2 : f.data 0 &&& 0xF0 = 0x00) :
    _iso_tp_decode_n_pdu s f =
      _iso_tp_deduce_n_pcitype_n_sf
        { s with _n_pdu := { s._n_pdu with
            n_pci := { s._n_pdu.n_pci with
              n_pcitype := ISO_TP_N_PCITYPE_INVALID } } } f := by
  simp only [_iso_tp_decode_n_pdu]
  rw [if_pos ⟨h1, h2⟩]

theorem deduce_sf_valid (s : iso_tp) (f : iso_tp_can_frame)
    (h1 : 1 ≤ f.len) (hn0 : f.data 0 &&& 0x0F ≠ 0)
    (hn7 : ¬ 7 < f.data 0 &&& 0x0F)
    (hlen : ¬ f.len < 1 + (f.data 0 &&& 0x0F)) :
    _iso_tp_deduce_n_pcitype_n_sf s f =
      { s with _n_pdu :=
        { n_pci := { s._n_pdu.n_pci with
            n_pcitype := ISO_TP_N_PCITYPE_SF
            sf_dl := f.data 0 &&& 0x0F }
          len_n_data := f.data 0 &&& 0x0F
          n_data := memcpyB s._n_pdu.n_data 0 f.data 1
            (f.data 0 &&& 0x0F) } } := by
  simp only [_iso_tp_deduce_n_pcitype_n_sf]
  rw [if_neg (by omega), if_neg hn0, if_neg hn7, if_neg hlen]

/-- C3: a SingleFrame message with `1 ≤ sf_dl ≤ 7` and consistent payload
length survives an encode/decode round trip: decoding (into any session) the
frame encoded from it yields kind SingleFrame with the same `sf_dl`, the
same payload length, and the same payload bytes. -/
theorem C3_sf_round_trip (s s2 : iso_tp) (f : iso_tp_can_frame)
    (hk : s._n_pdu.n_pci.n_pcitype = ISO_TP_N_PCITYPE_SF)
    (h1 : 1 ≤ s._n_pdu.n_pci.sf_dl) (h7 : s._n_pdu.n_pci.sf_dl ≤ 7)
    (hlen : s._n_pdu.len_n_data = s._n_pdu.n_pci.sf_dl) :
    (_iso_tp_decode_n_pdu s2
        (_iso_tp_encode_n_pdu s f))._n_pdu.n_pci.n_pcitype =
      ISO_TP_N_PCITYPE_SF ∧
    (_iso_tp_decode_n_pdu s2
        (_iso_tp_encode_n_pdu s f))._n_pdu.n_pci.sf_dl =
      s._n_pdu.n_pci.sf_dl ∧
    (_iso_tp_decode_n_pdu s2 (_iso_tp_encode_n_pdu s f))._n_pdu.len_n_data =
      s._n_pdu.len_n_data ∧
    (∀ i : Nat, i < s._n_pdu.len_n_data →
      (_iso_tp_decode_n_pdu s2 (_iso_tp_encode_n_pdu s f))._n_pdu.n_data i =
        s._n_pdu.n_data i) := by
  have hf : _iso_tp_encode_n_pdu s f =
      { f with
        data := memcpyB (setB (memset8 f.data) 0
            (0x00 ||| s._n_pdu.n_pci.sf_dl))
          1 s._n_pdu.n_data 0 s._n_pdu.n_pci.sf_dl
        len := 1 + s._n_pdu.n_pci.sf_dl } := by
    simp only [_iso_tp_encode_n_pdu, if_pos hk, if_pos h7]
  have hdata : (_iso_tp_encode_n_pdu s f).data =
      memcpyB (setB (memset8 f.data) 0 (0x00 ||| s._n_pdu.n_pci.sf_dl))
        1 s._n_pdu.n_data 0 s._n_pdu.n_pci.sf_dl := by
    rw [hf]
  have hb0 : (_iso_tp_encode_n_pdu s f).data 0 = s._n_pdu.n_pci.sf_dl := by
    rw [hdata, memcpyB_out _ _ _ _ _ _ (by omega), setB_self, Nat.zero_or]
  have hbi : ∀ i : Nat, i < s._n_pdu.n_pci.sf_dl →
      (_iso_tp_encode_n_pdu s f).data (1 + i) = s._n_pdu.n_data i := by
    intro i hi
    rw [hdata, memcpyB_in _ _ _ _ _ _ (by omega) (by omega)]
    congr 1
    omega
  have hflen : (_iso_tp_encode_n_pdu s f).len = 1 + s._n_pdu.n_pci.sf_dl := by
    rw [hf]
  have hmask0 : (_iso_tp_encode_n_pdu s f).data 0 &&& 0xF0 = 0x00 := by
    rw [hb0]
    exact land_0xF0_of_le_7 _ h7
  have hmask1 : (_iso_tp_encode_n_pdu s f).data 0 &&& 0x0F =
      s._n_pdu.n_pci.sf_dl := by
    rw [hb0]
    exact land_0x0F_of_le_7 _ h7
  have hlen1 : 1 ≤ (_iso_tp_encode_n_pdu s f).len := by
    rw [hflen]; omega
  rw [decode_sf_branch s2 _ hlen1 hmask0,
    deduce_sf_valid _ _ hlen1 (by rw [hmask1]; omega)
      (by rw [hmask1]; omega) (by rw [hmask1, hflen]; omega)]
  refine ⟨rfl, ?_, ?_, ?_⟩
  · exact hmask1
  · rw [hlen]
    exact hmask1
  · intro i hi
    show memcpyB s2._n_pdu.n_data 0 (_iso_tp_encode_n_pdu s f).data 1
        ((_iso_tp_encode_n_pdu s f).data 0 &&& 0x0F) i =
      s._n_pdu.n_data i
    rw [memcpyB_in _ _ _ _ _ _ (by omega) (by rw [hmask1]; omega)]
    simp only [Nat.sub_zero]
    exact hbi i (by omega)

/-- Session whose stored message is a SingleFrame with payload `AA BB`. -/
def stateSF2 : iso_tp :=
  { listenState with _n_pdu :=
    { n_pci := { n_pcitype := ISO_TP_N_PCITYPE_SF, sf_dl := 2,
                 ff_dl := 0, sn := 0, fs := 0, bs := 0, min_st := 0 }
      n_data := bytesOf [0xAA, 0xBB]
      len_n_data := 2 } }

/-- C3 witness: the concrete two-byte SingleFrame round-trips. -/
theorem C3_sf_round_trip_witness :
    (_iso_tp_decode_n_pdu listenState
        (_iso_tp_encode_n_pdu stateSF2 zeroFrame))._n_pdu.n_pci.n_pcitype =
      ISO_TP_N_PCITYPE_SF ∧
    (_iso_tp_decode_n_pdu listenState
        (_iso_tp_encode_n_pdu stateSF2 zeroFrame))._n_pdu.n_pci.sf_dl = 2 ∧
    (_iso_tp_decode_n_pdu listenState
        (_iso_tp_encode_n_pdu stateSF2 zeroFrame))._n_pdu.len_n_data = 2 ∧
    (_iso_tp_decode_n_pdu listenState
        (_iso_tp_encode_n_pdu stateSF2 zeroFrame))._n_pdu.n_data 0 =
      stateSF2._n_pdu.n_data 0 :=
  ⟨(C3_sf_round_trip stateSF2 listenState zeroFrame rfl (by decide)
      (by decide) rfl).1,
   (C3_sf_round_trip stateSF2 listenState zeroFrame rfl (by decide)
      (by decide) rfl).2.1,
   (C3_sf_round_trip stateSF2 listenState zeroFrame rfl (by decide)
      (by decide) rfl).2.2.1,
   (C3_sf_round_trip stateSF2 listenState zeroFrame rfl (by decide)
      (by decide) rfl).2.2.2 0 (by decide)⟩

/-- C4: in the listening state every step first invalidates the stored
message's kind; with no pending RX frame it returns the None event and does
nothing else; with a pending frame it decodes it, clears the RX slot
(exactly one frame per step, whatever the outcome), and returns the N_PDU
event exactly when the decoded kind is not Invalid. -/
theorem C4_listen_step (s : iso_tp) (d : Nat)
    (h : s._state = _ISO_TP_STATE_LISTEN_N_PDU) :
    (s._has_rx = false →
      iso_tp_step s d =
        ({ s with _n_pdu := { s._n_pdu with
            n_pci := { s._n_pdu.n_pci with
              n_pcitype := ISO_TP_N_PCITYPE_INVALID } } },
         EVENT_NONE)) ∧
    (s._has_rx = true →
      (iso_tp_step s d).1 =
        { _iso_tp_decode_n_pdu
            { s with _n_pdu := { s._n_pdu with
                n_pci := { s._n_pdu.n_pci with
                  n_pcitype := ISO_TP_N_PCITYPE_INVALID } } }
            s._can_rx_frame with
          _has_rx := false } ∧
      (iso_tp_step s d).1._has_rx = false ∧
      ((iso_tp_step s d).2 = EVENT_N_PDU ↔
        (iso_tp_step s d).1._n_pdu.n_pci.n_pcitype ≠
          ISO_TP_N_PCITYPE_INVALID) ∧
      ((iso_tp_step s d).2 = EVENT_NONE ↔
        (iso_tp_step s d).1._n_pdu.n_pci.n_pcitype =
          ISO_TP_N_PCITYPE_INVALID)) := by
  have hc : ¬ s._state = _ISO_TP_STATE_CONFIG := by rw [h]; decide
  constructor
  · intro hrx
    simp [iso_tp_step, if_neg hc, if_pos h, hrx]
  · intro hrx
    simp only [iso_tp_step, if_neg hc, if_pos h, hrx, Bool.true_eq_false,
      if_false]
    rw [apply_ite Prod.fst, ite_self]
    refine ⟨rfl, rfl, ?_, ?_⟩
    · split_ifs with hinv <;> simp [hinv]
    · split_ifs with hinv <;> simp [hinv]

/-- Listening session with the SingleFrame `frameSF2` pending in RX. -/
def stateRxSF2 : iso_tp :=
  { listenState with _has_rx := true, _can_rx_frame := frameSF2 }

/-- C4 witness: with no pending frame the step emits None; with `frameSF2`
pending it clears RX and emits the N_PDU event. -/
theorem C4_listen_step_witness :
    iso_tp_step listenState 0 =
      ({ listenState with _n_pdu := { listenState._n_pdu with
          n_pci := { listenState._n_pdu.n_pci with
            n_pcitype := ISO_TP_N_PCITYPE_INVALID } } },
       EVENT_NONE) ∧
    (iso_tp_step stateRxSF2 0).1._has_rx = false ∧
    (iso_tp_step stateRxSF2 0).2 = EVENT_N_PDU :=
  ⟨(C4_listen_step listenState 0 rfl).1 rfl,
   ((C4_listen_step stateRxSF2 0 rfl).2 rfl).2.1,
   (((C4_listen_step stateRxSF2 0 rfl).2 rfl).2.2.1).mpr (by decide)⟩

/-!  Characterisation of `_cf_err` across the decoder branches. -/

theorem deduce_ff_cf_err (s : iso_tp) (f : iso_tp_can_frame)
    (h2 : 2 ≤ f.len) :
    ((_iso_tp_deduce_n_pcitype_n_ff s f)._cf_err = false ↔
      (((f.data 0 &&& 0x0F) <<< 8) ||| f.data 1 ≠ 0 ∧
       ¬ ((f.data 0 &&& 0x0F) <<< 8) ||| f.data 1 < s._cfg.min_ff_dl ∧
       ¬ ((f.data 0 &&& 0x0F) <<< 8) ||| f.data 1 < f.len - 2)) := by
  simp only [_iso_tp_deduce_n_pcitype_n_ff]
  rw [if_neg (by omega)]
  split_ifs with hc0 hc1 hc2
  · simp [hc0]
  · simp [hc1]
  · simp [hc2]
  · simp [hc0, hc1, hc2]

theorem decode_preserves_cf_err (s : iso_tp) (f : iso_tp_can_frame)
    (hnFF : ¬ (2 ≤ f.len ∧ f.data 0 &&& 0xF0 = 0x10))
    (hnCF : ¬ (1 ≤ f.len ∧ f.data 0 &&& 0xF0 = 0x20 ∧ 1 < s._cf_left)) :
    (_iso_tp_decode_n_pdu s f)._cf_err = s._cf_err := by
  by_cases hSF : 1 ≤ f.len ∧ f.data 0 &&& 0xF0 = 0x00
  · rw [decode_sf_branch s f hSF.1 hSF.2]
    exact (deduce_sf_untouched _ _).2.2.2.2.2.2.2
  · simp only [_iso_tp_decode_n_pdu]
    rw [if_neg hSF, if_neg hnFF, if_neg hnCF]
    split
    · rfl
    · rfl

/-- C2: the reassembly-inconsistency flag `_cf_err` (a) is, after any frame
classified as FirstFrame, false exactly when that FirstFrame passed all
validation; (b) after an accepted ConsecutiveFrame is true exactly when it
was already set or the received sequence number does not continue the stored
one mod 16; (c) is untouched by any other decode outcome; (d)-(g) is
untouched by push, pop, override and set_config; and (h) is sticky: if it is
set and a step clears it, that step decoded a pending FirstFrame that passed
all validation. -/
theorem C2_cf_err_lifecycle (s : iso_tp) (f : iso_tp_can_frame)
    (pdu : iso_tp_n_pdu) (cfg : iso_tp_config) (d : Nat) :
    (2 ≤ f.len → f.data 0 &&& 0xF0 = 0x10 →
      ((_iso_tp_decode_n_pdu s f)._cf_err = false ↔
        (((f.data 0 &&& 0x0F) <<< 8) ||| f.data 1 ≠ 0 ∧
         ¬ ((f.data 0 &&& 0x0F) <<< 8) ||| f.data 1 < s._cfg.min_ff_dl ∧
         ¬ ((f.data 0 &&& 0x0F) <<< 8) ||| f.data 1 < f.len - 2))) ∧
    (1 ≤ f.len → f.data 0 &&& 0xF0 = 0x20 → 1 < s._cf_left →
      ((_iso_tp_decode_n_pdu s f)._cf_err = true ↔
        (s._cf_err = true ∨
         (((f.data 0 &&& 0x0F) + 4294967295) % 4294967296) &&& 0x0F ≠
           s._n_pdu.n_pci.sn))) ∧
    (¬ (2 ≤ f.len ∧ f.data 0 &&& 0xF0 = 0x10) →
     ¬ (1 ≤ f.len ∧ f.data 0 &&& 0xF0 = 0x20 ∧ 1 < s._cf_left) →
      (_iso_tp_decode_n_pdu s f)._cf_err = s._cf_err) ∧
    (iso_tp_push_frame s f).1._cf_err = s._cf_err ∧
    (iso_tp_pop_frame s).1._cf_err = s._cf_err ∧
    (iso_tp_override_n_pdu s pdu).1._cf_err = s._cf_err ∧
    (iso_tp_set_config s cfg)._cf_err = s._cf_err ∧
    (s._cf_err = true → (iso_tp_step s d).1._cf_err = false →
      (s._state = _ISO_TP_STATE_LISTEN_N_PDU ∧ s._has_rx = true ∧
       2 ≤ s._can_rx_frame.len ∧
       s._can_rx_frame.data 0 &&& 0xF0 = 0x10 ∧
       ((s._can_rx_frame.data 0 &&& 0x0F) <<< 8) |||
         s._can_rx_frame.data 1 ≠ 0 ∧
       ¬ ((s._can_rx_frame.data 0 &&& 0x0F) <<< 8) |||
         s._can_rx_frame.data 1 < s._cfg.min_ff_dl ∧
       ¬ ((s._can_rx_frame.data 0 &&& 0x0F) <<< 8) |||
         s._can_rx_frame.data 1 < s._can_rx_frame.len - 2)) := by
  refine ⟨fun h1 h2 => ?_, fun h1 h2 h3 => ?_, fun hnFF hnCF => ?_,
    ?_, ?_, ?_, ?_, fun ht hcl => ?_⟩
  · rw [decode_ff_branch s f h1 h2]
    exact deduce_ff_cf_err _ f h1
  · rw [decode_cf_branch s f h1 h2 h3]
    show (if _ then true else s._cf_err) = true ↔ _
    split_ifs with hm
    · simp [hm]
    · simp [hm]
  · exact decode_preserves_cf_err s f hnFF hnCF
  · simp only [iso_tp_push_frame]
    split
    · rfl
    · rfl
  · simp only [iso_tp_pop_frame]
    split
    · rfl
    · rfl
  · simp only [iso_tp_override_n_pdu]
    split
    · rfl
    · rfl
  · simp only [iso_tp_set_config]
    split
    · rfl
    · rfl
  · by_cases hcfgs : s._state = _ISO_TP_STATE_CONFIG
    · exfalso
      simp only [iso_tp_step, if_pos hcfgs] at hcl
      split_ifs at hcl <;> simp_all
    · by_cases hl : s._state = _ISO_TP_STATE_LISTEN_N_PDU
      · rcases hrx : s._has_rx with _ | _
        · exfalso
          simp only [iso_tp_step, if_neg hcfgs, if_pos hl, hrx,
            if_true] at hcl
          rw [ht] at hcl
          exact Bool.true_eq_false.mp hcl
        · simp only [iso_tp_step, if_neg hcfgs, if_pos hl] at hcl
          rw [if_neg (show ¬ (s._has_rx = false) by simp [hrx])] at hcl
          rw [apply_ite Prod.fst, ite_self] at hcl
          have hcl2 :
              (_iso_tp_decode_n_pdu s s._can_rx_frame)._cf_err = false := hcl
          clear hcl
          by_cases hFF : 2 ≤ s._can_rx_frame.len ∧
              s._can_rx_frame.data 0 &&& 0xF0 = 0x10
          · refine ⟨hl, rfl, hFF.1, hFF.2, ?_⟩
            rw [decode_ff_branch s s._can_rx_frame hFF.1 hFF.2] at hcl2
            exact (deduce_ff_cf_err
              { s with _n_pdu := { s._n_pdu with
                  n_pci := { s._n_pdu.n_pci with
                    n_pcitype := ISO_TP_N_PCITYPE_INVALID } } }
              s._can_rx_frame hFF.1).mp hcl2
          · exfalso
            by_cases hCF : 1 ≤ s._can_rx_frame.len ∧
                s._can_rx_frame.data 0 &&& 0xF0 = 0x20 ∧ 1 < s._cf_left
            · rw [decode_cf_branch s s._can_rx_frame
                hCF.1 hCF.2.1 hCF.2.2] at hcl2
              revert hcl2
              show (if (((s._can_rx_frame.data 0 &&& 0x0F) + 4294967295) %
                    4294967296) &&& 0x0F ≠ s._n_pdu.n_pci.sn
                  then true else s._cf_err) = false → False
              split_ifs with hm
              · simp
              · rw [ht]
                simp
            · rw [decode_preserves_cf_err _ _ hFF hCF, ht] at hcl2
              exact Bool.true_eq_false.mp hcl2
      · exfalso
        simp only [iso_tp_step, if_neg hcfgs, if_neg hl] at hcl
        rw [ht] at hcl
        exact Bool.true_eq_false.mp hcl

/-- ConsecutiveFrame with the out-of-order sequence number 2. -/
def frameCF2 : iso_tp_can_frame :=
  { id := 1, len := 8, data := bytesOf [0x22, 1, 2, 3, 4, 5, 6, 7] }

/-- Listening session with the error flag set and `frameFF9` pending. -/
def stateErrRxFF9 : iso_tp :=
  { listenState with
    _cf_err := true
    _has_rx := true
    _can_rx_frame := frameFF9 }

/-- C2 witness: a valid FirstFrame clears the flag, a sequence gap on an
accepted ConsecutiveFrame sets it, and the concrete sticky-clearing step
exhibits a pending FirstFrame whose total length is nonzero. -/
theorem C2_cf_err_lifecycle_witness :
    (_iso_tp_decode_n_pdu listenState frameFF9)._cf_err = false ∧
    (_iso_tp_decode_n_pdu stateCF3 frameCF2)._cf_err = true ∧
    ((stateErrRxFF9._can_rx_frame.data 0 &&& 0x0F) <<< 8) |||
      stateErrRxFF9._can_rx_frame.data 1 ≠ 0 :=
  ⟨((C2_cf_err_lifecycle listenState frameFF9 listenState._n_pdu
      listenState._cfg 0).1 (by decide) (by decide)).mpr
      ⟨by decide, by decide, by decide⟩,
   ((C2_cf_err_lifecycle stateCF3 frameCF2 listenState._n_pdu
      listenState._cfg 0).2.1 (by decide) (by decide) (by decide)).mpr
      (Or.inr (by decide)),
   ((C2_cf_err_lifecycle stateErrRxFF9 frameFF9 listenState._n_pdu
      listenState._cfg 0).2.2.2.2.2.2.2 rfl (by decide)).2.2.2.2.1⟩
